import Mathlib

/-!
Verification of the topology-parsing and failover-scenario logic of the
redis-sentinel-cluster test suite.

The Python sources are shallowly embedded:

* pure parsing code (the flat key/value reply decoders in
  `test-sentinel-cluster.py` and the predicate expressions in
  `test-sentinel-scenarios.py` / `test-redis-cluster.py`) becomes ordinary
  Lean functions over `List String` / `Option` values;
* effectful scenario code (`test_master_failure`, `test_sentinel_failure`)
  becomes a function from an environment describing the outcome of every
  external call (return value, raised `Exception`, or raised
  `KeyboardInterrupt`) to the function's result together with the trace of
  external actions it performed.

Python `dict` objects built from flat replies are represented as association
lists; `dict.get` with repeated keys is last-binding-wins, which we model by
looking the key up in the reversed list.
-/

/-- Result of `int(s)` on a Python string: digits with optional sign and
surrounding whitespace.  (Underscore digit grouping is not modelled; no input
relevant to the claims uses it.) -/
def pyDigits (s : List Char) : Option Nat :=
  if s = [] then none
  else if s.all Char.isDigit then
    some (s.foldl (fun acc c => acc * 10 + (c.toNat - 48)) 0)
  else none

/-- Strip leading and trailing whitespace from a character list, as `int`
does before parsing. -/
def stripWs (s : List Char) : List Char :=
  ((s.dropWhile Char.isWhitespace).reverse.dropWhile Char.isWhitespace).reverse

/-- Python `int(s)` for a string argument: `some` integer on success, `none`
when a `ValueError` would be raised. -/
def pyInt (s : String) : Option Int :=
  let cs := stripWs s.toList
  match cs with
  | '-' :: rest => (pyDigits rest).map (fun n => -(n : Int))
  | '+' :: rest => (pyDigits rest).map (fun n => (n : Int))
  | _ => (pyDigits cs).map (fun n => (n : Int))

/-- The pairing loop `for i in range(0, len(xs), 2): if i + 1 < len(xs): ...`
used throughout the sources: consecutive key/value pairs, a dangling trailing
key is dropped. -/
def flatPairs : List String → List (String × String)
  | k :: v :: rest => (k, v) :: flatPairs rest
  | _ => []

/-- `dict.get(k)` on a dict built by inserting the pairs in order: the last
binding of a key wins. -/
def dget (ps : List (String × String)) (k : String) : Option String :=
  ps.reverse.lookup k

/-- `d[k] = v` on an association list that keeps one binding per key, as a
Python dict does: replace the existing binding or append a new one. -/
def dinsert (d : List (String × String)) (k v : String) : List (String × String) :=
  if (d.lookup k).isSome then
    d.map (fun p => if p.1 = k then (k, v) else p)
  else d ++ [(k, v)]

/-- `int(d.get(k, 0))`: a missing key defaults to the integer `0`; a present
value is a string fed to `int`, which may raise (`none`). -/
def intField (d : List (String × String)) (k : String) : Option Int :=
  match dget d k with
  | none => some 0
  | some s => pyInt s

/-- One decoded slave record, the dict literal built at
`test-sentinel-cluster.py:216-223` (and again at 229-236).  `none` in an
optional field is Python's `None` from `dict.get`. -/
structure SlaveInfo where
  name : Option String
  ip : Option String
  port : Int
  flags : Option String
  master_link_status : Option String
  slave_priority : Int
deriving DecidableEq, Repr

/-- Build the `slave_info` dict literal from the in-progress `current_slave`
dict; `none` when one of the two `int(...)` calls raises. -/
def mkSlaveInfo (cur : List (String × String)) : Option SlaveInfo :=
  match intField cur "port", intField cur "slave-priority" with
  | some p, some prio =>
      some { name := dget cur "name", ip := dget cur "ip", port := p,
             flags := dget cur "flags",
             master_link_status := dget cur "master-link-status",
             slave_priority := prio }
  | _, _ => none

/-- The record-splitting loop of `test_slave_monitoring`
(`test-sentinel-cluster.py:207-237`): walk the flat reply two tokens at a
time, insert into `current_slave`, and emit a record each time the key `name`
arrives while the dict already holds more than one key; after the loop a
final record is emitted if more than one key remains.  The boolean result is
`true` when an `int(...)` call raised, aborting the loop (the enclosing
`except` then returns the records accumulated so far). -/
def slavesLoop : List String → List (String × String) → List SlaveInfo →
    List SlaveInfo × Bool
  | k :: v :: rest, cur, acc =>
      let cur2 := dinsert cur k v
      if k = "name" ∧ 1 < cur2.length then
        match mkSlaveInfo cur2 with
        | none => (acc, true)
        | some info => slavesLoop rest [("name", v)] (acc ++ [info])
      else slavesLoop rest cur2 acc
  | _, cur, acc =>
      if 1 < cur.length then
        match mkSlaveInfo cur with
        | none => (acc, true)
        | some info => (acc ++ [info], false)
      else (acc, false)

/-- `test_slave_monitoring`'s conversion of the flat `SENTINEL slaves` reply
into a list of per-slave dicts.  (The sentinel-communication loop at
`test-sentinel-cluster.py:281-309` is the same algorithm with different
extracted fields.) -/
def decodeSlaves (slaves : List String) : List SlaveInfo × Bool :=
  slavesLoop slaves [] []

/-- The master-info dict literal of `test_master_monitoring`
(`test-sentinel-cluster.py:143-156`): `name`/`ip`/`flags` via `dict.get`
(missing keys give `None`), the four numeric fields via `int(d.get(k, 0))`.
`none` when one of the `int(...)` calls raises. -/
structure MasterInfo where
  name : Option String
  ip : Option String
  port : Int
  flags : Option String
  num_slaves : Int
  num_sentinels : Int
  quorum : Int
deriving DecidableEq, Repr

/-- `test_master_monitoring`'s conversion of the flat `SENTINEL masters` reply
into the `master_info` dict.  An `int(...)` failure escapes to the enclosing
`except`, modelled as `none`. -/
def parse_master_info (masters : List String) : Option MasterInfo :=
  let d := flatPairs masters
  match intField d "port", intField d "num-slaves",
        intField d "num-other-sentinels", intField d "quorum" with
  | some p, some ns, some nse, some q =>
      some { name := dget d "name", ip := dget d "ip", port := p,
             flags := dget d "flags", num_slaves := ns,
             num_sentinels := nse, quorum := q }
  | _, _, _, _ => none

/-- `test_sentinel_quorum` (`test-sentinel-cluster.py:375-399`): parse the
`SENTINEL masters` reply, compute `total_sentinels = num_sentinels + 1`, and
return `total_sentinels >= quorum`.  An empty reply or an `int(...)` failure
(which escapes to the `except` at 401) yields `false`. -/
def test_sentinel_quorum (masters : List String) : Bool :=
  if masters.isEmpty then false
  else
    let d := flatPairs masters
    match intField d "quorum", intField d "num-other-sentinels" with
    | some quorum, some num_sentinels => num_sentinels + 1 ≥ quorum
    | _, _ => false

/-- The quorum-maintained decision of `test_network_partition`
(`test-sentinel-scenarios.py:285-306`): parse the reply and return
`num_sentinels >= quorum` — with no `+ 1` for the querying sentinel.  An
empty reply or an `int(...)` failure leads to a failed verdict, `false`. -/
def partition_quorum_check (masters : List String) : Bool :=
  if masters.isEmpty then false
  else
    let d := flatPairs masters
    match intField d "quorum", intField d "num-other-sentinels" with
    | some quorum, some num_sentinels => num_sentinels ≥ quorum
    | _, _ => false

/-- A `SENTINEL masters` reply carrying a quorum of `q` and
`num-other-sentinels` of `k`, as the monitored cluster would report it. -/
def mkMastersReply (q k : Nat) : List String :=
  ["name", "mymaster", "ip", "redis-master", "port", "6379",
   "flags", "master", "quorum", toString q, "num-other-sentinels", toString k]

/-- `health['replication']` of `check_cluster_health`
(`test-sentinel-scenarios.py:138-142`): the master's self-reported role is
`master`, its `connected_slaves` is at least 2, and every probed replica's
`master_link_status` is `up`.  A missing `connected_slaves` (`None >= 2`
raises, leaving the field `False`) is modelled as `false`. -/
def replication_healthy (role : Option String) (connected_slaves : Option Int)
    (links : List (Option String)) : Bool :=
  (role == some "master") &&
  (match connected_slaves with
   | some n => decide (2 ≤ n)
   | none => false) &&
  links.all (fun l => l == some "up")

/-- Outcome of `replica.set(...)` as seen by `test_write_to_replica_fails`:
the write is accepted, a `redis.ResponseError` with a message is raised, or
some other exception is raised (caught only by the outer `except`). -/
inductive WriteOutcome where
  | accepted
  | responseError (msg : String)
  | otherError
deriving DecidableEq, Repr

/-- Does `n` occur as a contiguous run inside the character list? -/
def containsSubAux (n : List Char) : List Char → Bool
  | [] => n.isPrefixOf []
  | c :: t => n.isPrefixOf (c :: t) || containsSubAux n t

/-- Substring containment on strings, Python's `needle in hay`. -/
def containsSub (needle hay : String) : Bool :=
  containsSubAux needle.toList hay.toList

/-- The message test of `test_write_to_replica_fails`
(`test-redis-cluster.py:289,301`): `'READONLY' in str(e)` (case-sensitive)
`or 'read only replica' in str(e).lower()`. -/
def readonly_msg_ok (m : String) : Bool :=
  containsSub "READONLY" m || containsSub "read only replica" m.toLower

/-- `test_write_to_replica_fails` (`test-redis-cluster.py:278-311`): each
replica write must raise a `ResponseError` with an accepted read-only
message; an accepted write, a mismatched message, or any other exception
yields `false`. -/
def test_write_to_replica_fails (w1 w2 : WriteOutcome) : Bool :=
  match w1 with
  | .accepted => false
  | .otherError => false
  | .responseError m1 =>
    if readonly_msg_ok m1 then
      match w2 with
      | .accepted => false
      | .otherError => false
      | .responseError m2 => readonly_msg_ok m2
    else false

/-- The ten keyed writes of `test_stress_scenario`
(`test-sentinel-scenarios.py:429-438`): keys `stress_test_0` … `stress_test_9`
paired with the written values. -/
def stressOperations (vals : Nat → String) : List (String × String) :=
  (List.range 10).map (fun i => ("stress_test_" ++ toString i, vals i))

/-- Whether one operation verifies: Python's chained
`replica1_value == replica2_value == expected_value`. -/
def stressOpOk (get1 get2 : String → Option String) (op : String × String) : Bool :=
  (get1 op.1 == some op.2) && (get2 op.1 == some op.2)

/-- `test_stress_scenario` (`test-sentinel-scenarios.py:422-459`): count the
operations read back identically from both replicas and pass at a success
rate of at least 80%.  Python computes `(count / 10) * 100 >= 80` in floats;
on the eleven possible counts that comparison coincides with the exact
arithmetic modelled here. -/
def test_stress_scenario (vals : Nat → String) (get1 get2 : String → Option String) : Bool :=
  let operations := stressOperations vals
  let success_count := operations.countP (stressOpOk get1 get2)
  decide (80 ≤ success_count * 100 / operations.length)

/-- `run_all_tests` of `test-sentinel-cluster.py:405-481`, abstracted over the
six test outcomes: a failed first test returns early (only one test
executed); otherwise all six run and the suite passes iff the pass count is
six.  Result: (overall verdict, number of tests executed). -/
def run_all_tests (t1 t2 t3 t4 t5 t6 : Bool) : Bool × Nat :=
  if t1 = false then (false, 1)
  else
    let passed := 1 + (cond t2 1 0) + (cond t3 1 0) + (cond t4 1 0)
                    + (cond t5 1 0) + (cond t6 1 0)
    (decide (passed = 6), 6)

/-- `main` of `test-sentinel-cluster.py:483-487`: exit code 0 iff
`run_all_tests` succeeded. -/
def main_cluster (t1 t2 t3 t4 t5 t6 : Bool) : Nat :=
  if (run_all_tests t1 t2 t3 t4 t5 t6).1 then 0 else 1

/-- The scenario table of `run_scenario` (`test-sentinel-scenarios.py:465-471`). -/
def scenarioNames : List String :=
  ["monitor", "failover", "partition", "recovery", "stress"]

/-- `run_scenario` (`test-sentinel-scenarios.py:461-477`): dispatch on the
name, unknown names fail. -/
def run_scenario (results : String → Bool) (name : String) : Bool :=
  if name ∈ scenarioNames then results name else false

/-- `main` of `test-sentinel-scenarios.py:531-560` on the non-raising paths:
missing argument exits 1; `all` runs every scenario and exits 0 iff all
passed; otherwise the single (lower-cased) scenario decides the exit code. -/
def main_scenarios (argv : List String) (results : String → Bool) : Nat :=
  match argv.get? 1 with
  | none => 1
  | some a =>
    let scenario := a.toLower
    if scenario = "all" then
      if scenarioNames.all results then 0 else 1
    else
      if run_scenario results scenario then 0 else 1

/-- Outcome of one external call: a returned value, a raised `Exception`
(caught by the scripts' `except Exception` handlers), or a raised
`KeyboardInterrupt` (which no handler in the scripts catches). -/
inductive Res (α : Type) where
  | ok (a : α)
  | exc
  | kbint
deriving DecidableEq, Repr

/-- External actions a scenario performs, recorded in order.  `restoreMaster`
stands for one entry into a restore site — the adjacent
`docker update --restart=unless-stopped` / `docker start redis-master` pair,
whose two invocations are modelled as a single attempt with one outcome. -/
inductive Ev where
  | healthCheck
  | write (target : String)
  | updateRestart (policy : String)
  | stopNode (node : String)
  | startNode (node : String)
  | query (cmd : String)
  | restoreMaster
deriving DecidableEq, Repr

/-- How a Python function invocation ends: `return True`, `return False`, an
uncaught `Exception`, or an uncaught `KeyboardInterrupt`. -/
inductive PyResult where
  | retTrue
  | retFalse
  | raisedExc
  | raisedKb
deriving DecidableEq, Repr

/-- Environment for `test_master_failure`
(`test-sentinel-scenarios.py:179-261`): the outcome of every external call
the function can make, in source order, plus the role the new master address
would self-report if probed (`newMasterRole` — the function never reads it,
because the source performs no role probe). -/
structure MFEnv where
  setBefore : Res Unit
  updateNoRestart : Res Unit
  stopMaster : Res Unit
  sentinelMasters : Res (List String)
  getMasterAddr : Res (List String)
  writeNewMaster : Res Unit
  newMasterRole : String
  restoreSuccess : Res Unit
  restoreOther : Res Unit
  restoreNoAddr : Res Unit
  restoreInner : Res Unit
  restoreOuter : Res Unit
deriving DecidableEq, Repr

/-- The outer `except Exception` handler of `test_master_failure`
(lines 256-261): attempt the restore pair and return `False`; an error raised
by the restore itself propagates out of the function. -/
def mfOuter (env : MFEnv) (tr : List Ev) : PyResult × List Ev :=
  match env.restoreOuter with
  | .ok _ => (.retFalse, tr ++ [.restoreMaster])
  | .exc => (.raisedExc, tr ++ [.restoreMaster])
  | .kbint => (.raisedKb, tr ++ [.restoreMaster])

/-- The inner `except Exception` handler of `test_master_failure`
(lines 249-254): attempt the restore pair and return `False`; an error raised
by the restore itself is caught by the outer handler. -/
def mfInner (env : MFEnv) (tr : List Ev) : PyResult × List Ev :=
  match env.restoreInner with
  | .ok _ => (.retFalse, tr ++ [.restoreMaster])
  | .exc => mfOuter env (tr ++ [.restoreMaster])
  | .kbint => (.raisedKb, tr ++ [.restoreMaster])

/-- `test_master_failure` (`test-sentinel-scenarios.py:179-261`).  The parse
of the `SENTINEL masters` reply and the `s_down` flag test (lines 196-205)
only log, so they appear in the model as the query event alone.  A resolved
address list of length one raises `IndexError` in the success log's
`new_master_addr[1]` and lands in the inner handler. -/
def testMasterFailure (env : MFEnv) : PyResult × List Ev :=
  let t1 := [Ev.write "redis-master"]
  match env.setBefore with
  | .kbint => (.raisedKb, t1)
  | .exc => mfOuter env t1
  | .ok _ =>
  let t2 := t1 ++ [Ev.updateRestart "no"]
  match env.updateNoRestart with
  | .kbint => (.raisedKb, t2)
  | .exc => mfOuter env t2
  | .ok _ =>
  let t3 := t2 ++ [Ev.stopNode "redis-master"]
  match env.stopMaster with
  | .kbint => (.raisedKb, t3)
  | .exc => mfOuter env t3
  | .ok _ =>
  let t4 := t3 ++ [Ev.query "masters"]
  match env.sentinelMasters with
  | .kbint => (.raisedKb, t4)
  | .exc => mfOuter env t4
  | .ok _ms =>
  let t5 := t4 ++ [Ev.query "get-master-addr-by-name"]
  match env.getMasterAddr with
  | .kbint => (.raisedKb, t5)
  | .exc => mfInner env t5
  | .ok addr =>
    match addr with
    | [] =>
        match env.restoreNoAddr with
        | .ok _ => (.retFalse, t5 ++ [.restoreMaster])
        | .exc => mfInner env (t5 ++ [.restoreMaster])
        | .kbint => (.raisedKb, t5 ++ [.restoreMaster])
    | [_] => mfInner env t5
    | host :: _ :: _ =>
      if host = "redis-replica-1" ∨ host = "redis-replica-2" then
        let t6 := t5 ++ [Ev.write "new-master"]
        match env.writeNewMaster with
        | .kbint => (.raisedKb, t6)
        | .exc => mfInner env t6
        | .ok _ =>
          match env.restoreSuccess with
          | .ok _ => (.retTrue, t6 ++ [.restoreMaster])
          | .exc => mfInner env (t6 ++ [.restoreMaster])
          | .kbint => (.raisedKb, t6 ++ [.restoreMaster])
      else
        match env.restoreOther with
        | .ok _ => (.retFalse, t5 ++ [.restoreMaster])
        | .exc => mfInner env (t5 ++ [.restoreMaster])
        | .kbint => (.raisedKb, t5 ++ [.restoreMaster])

/-- Number of restore-site entries in a trace. -/
def countRestores : List Ev → Nat
  | [] => 0
  | Ev.restoreMaster :: t => countRestores t + 1
  | _ :: t => countRestores t

/-- No external call of `test_master_failure` is hit by a
`KeyboardInterrupt`. -/
def noInterrupt (env : MFEnv) : Prop :=
  env.setBefore ≠ Res.kbint ∧ env.updateNoRestart ≠ Res.kbint ∧
  env.stopMaster ≠ Res.kbint ∧ env.sentinelMasters ≠ Res.kbint ∧
  env.getMasterAddr ≠ Res.kbint ∧ env.writeNewMaster ≠ Res.kbint

/-- Every restore-site attempt of `test_master_failure` succeeds. -/
def restoresOk (env : MFEnv) : Prop :=
  env.restoreSuccess = Res.ok () ∧ env.restoreOther = Res.ok () ∧
  env.restoreNoAddr = Res.ok () ∧ env.restoreInner = Res.ok () ∧
  env.restoreOuter = Res.ok ()

/-- Environment for `test_sentinel_failure`
(`test-sentinel-scenarios.py:324-371`): outcome of the baseline health check
(the `sentinel_monitoring` field of `check_cluster_health`, which cannot
raise an `Exception` to its caller because of its internal handler), of the
stop, the two pings, the masters query, and of each of the four
`docker start redis-sentinel-2` sites. -/
structure SFEnv where
  healthMonitoring : Res Bool
  stopSentinel2 : Res Unit
  ping1 : Res Bool
  ping3 : Res Bool
  sentinelMasters : Res (List String)
  startAfterOk : Res Unit
  startAfterNoMasters : Res Unit
  startAfterPingFail : Res Unit
  startOuter : Res Unit
deriving DecidableEq, Repr

/-- The `except Exception` handler of `test_sentinel_failure`
(lines 367-371): restart the stopped sentinel and return `False`. -/
def sfOuter (env : SFEnv) (tr : List Ev) : PyResult × List Ev :=
  match env.startOuter with
  | .ok _ => (.retFalse, tr ++ [.startNode "redis-sentinel-2"])
  | .exc => (.raisedExc, tr ++ [.startNode "redis-sentinel-2"])
  | .kbint => (.raisedKb, tr ++ [.startNode "redis-sentinel-2"])

/-- `test_sentinel_failure` (`test-sentinel-scenarios.py:324-371`): check
baseline health first and abort with `False` before any fault when it does
not hold; otherwise stop sentinel 2, ping the remaining sentinels, query the
masters, and restart the stopped sentinel on each exit branch. -/
def testSentinelFailure (env : SFEnv) : PyResult × List Ev :=
  let t1 := [Ev.healthCheck]
  match env.healthMonitoring with
  | .kbint => (.raisedKb, t1)
  | .exc => sfOuter env t1
  | .ok monitoring =>
  if monitoring = false then (.retFalse, t1)
  else
  let t2 := t1 ++ [Ev.stopNode "redis-sentinel-2"]
  match env.stopSentinel2 with
  | .kbint => (.raisedKb, t2)
  | .exc => sfOuter env t2
  | .ok _ =>
  match env.ping1 with
  | .kbint => (.raisedKb, t2)
  | .exc => sfOuter env t2
  | .ok p1 =>
  match env.ping3 with
  | .kbint => (.raisedKb, t2)
  | .exc => sfOuter env t2
  | .ok p3 =>
  if p1 && p3 then
    let t3 := t2 ++ [Ev.query "masters"]
    match env.sentinelMasters with
    | .kbint => (.raisedKb, t3)
    | .exc => sfOuter env t3
    | .ok ms =>
      if ms.isEmpty then
        match env.startAfterNoMasters with
        | .ok _ => (.retFalse, t3 ++ [.startNode "redis-sentinel-2"])
        | .exc => sfOuter env (t3 ++ [.startNode "redis-sentinel-2"])
        | .kbint => (.raisedKb, t3 ++ [.startNode "redis-sentinel-2"])
      else
        match env.startAfterOk with
        | .ok _ => (.retTrue, t3 ++ [.startNode "redis-sentinel-2"])
        | .exc => sfOuter env (t3 ++ [.startNode "redis-sentinel-2"])
        | .kbint => (.raisedKb, t3 ++ [.startNode "redis-sentinel-2"])
  else
    match env.startAfterPingFail with
    | .ok _ => (.retFalse, t2 ++ [.startNode "redis-sentinel-2"])
    | .exc => sfOuter env (t2 ++ [.startNode "redis-sentinel-2"])
    | .kbint => (.raisedKb, t2 ++ [.startNode "redis-sentinel-2"])

/-- A fully successful failover run: every call succeeds, the monitor tier
resolves `redis-replica-1` as the new master, whose self-reported role would
be `slave`. -/
def envMFok : MFEnv :=
  { setBefore := Res.ok (), updateNoRestart := Res.ok (), stopMaster := Res.ok (),
    sentinelMasters := Res.ok ["name", "mymaster", "flags", "s_down,master"],
    getMasterAddr := Res.ok ["redis-replica-1", "6379"],
    writeNewMaster := Res.ok (), newMasterRole := "slave",
    restoreSuccess := Res.ok (), restoreOther := Res.ok (),
    restoreNoAddr := Res.ok (), restoreInner := Res.ok (),
    restoreOuter := Res.ok () }

/-- A run interrupted by the operator (`KeyboardInterrupt`) while polling the
monitor tier, before any restore site is reached. -/
def envMFinterrupt : MFEnv :=
  { envMFok with sentinelMasters := Res.kbint }

/-- A sentinel-failure run whose baseline health check reports the monitoring
tier unhealthy. -/
def envSFunhealthy : SFEnv :=
  { healthMonitoring := Res.ok false, stopSentinel2 := Res.ok (),
    ping1 := Res.ok true, ping3 := Res.ok true,
    sentinelMasters := Res.ok ["name", "mymaster"],
    startAfterOk := Res.ok (), startAfterNoMasters := Res.ok (),
    startAfterPingFail := Res.ok (), startOuter := Res.ok () }

/-- The four keys of `master_info` parsed with `int(...)`. -/
def numericKeys : List String :=
  ["port", "num-slaves", "num-other-sentinels", "quorum"]

/-- Acceptance of the new master as the specification words it: a role probe
of the new address reports master and the test write to it succeeds.  This
definition follows the spec's words, for comparison with the source's
`testMasterFailure`, which performs no role probe. -/
def acceptsWriteSpec (env : MFEnv) : Bool :=
  (env.newMasterRole == "master") && (env.writeNewMaster == Res.ok ())

/-! ## Claim theorems -/

/-- C1: on the well-formed two-record flat reply from the specification's
round-trip example, the decoding loop of `test_slave_monitoring` does return
exactly two records with the correct per-record `ip`, `port` and `flags`,
but both records carry the second record's `name` (`r2`): the overwrite
`current_slave[key] = value` happens before the completed record is emitted,
so record 1 is emitted with record 2's name and the name `r1` appears in no
output record — cross-record field bleed. -/
theorem C1_decode_name_bleed :
    decodeSlaves ["name", "r1", "ip", "10.0.0.2", "port", "6380", "flags", "slave",
                  "name", "r2", "ip", "10.0.0.3", "port", "6381", "flags", "slave"] =
      ([{ name := some "r2", ip := some "10.0.0.2", port := 6380, flags := some "slave",
          master_link_status := none, slave_priority := 0 },
        { name := some "r2", ip := some "10.0.0.3", port := 6381, flags := some "slave",
          master_link_status := none, slave_priority := 0 }], false) := by
  decide

/-- C2 (amended): over the claimed ranges, the quorum check of
`test_sentinel_quorum` is satisfied iff `knownMonitorCount + 1 ≥ quorumCount`,
while the quorum-maintained check of `test_network_partition` is satisfied
iff `knownMonitorCount ≥ quorumCount`, without the `+ 1`. -/
theorem C2_quorum_checks :
    ∀ q < 6, ∀ k < 6, 1 ≤ q →
      test_sentinel_quorum (mkMastersReply q k) = decide (k + 1 ≥ q) ∧
      partition_quorum_check (mkMastersReply q k) = decide (k ≥ q) := by
  decide

theorem C2_quorum_checks_witness :
    test_sentinel_quorum (mkMastersReply 2 1) = decide (1 + 1 ≥ 2) ∧
    partition_quorum_check (mkMastersReply 2 1) = decide (1 ≥ 2) :=
  C2_quorum_checks 2 (by decide) 1 (by decide) (by decide)

/-- C2 counterexample: with `quorumCount = 2` and `knownMonitorCount = 1`,
`knownMonitorCount + 1 ≥ quorumCount` holds, yet the partition scenario's
quorum-maintained check returns `false`. -/
theorem C2_partition_check_no_self :
    partition_quorum_check (mkMastersReply 2 1) = false ∧ 1 + 1 ≥ 2 := by
  decide

/-- C6: the replication-health expression of `check_cluster_health` is true
iff the master's self-reported role is `master`, its connected-slave count is
present and at least the expected count of 2, and every probed replica's
`master_link_status` is `up`. -/
theorem C6_replication_healthy_iff (role : Option String) (connected_slaves : Option Int)
    (links : List (Option String)) :
    replication_healthy role connected_slaves links = true ↔
      (role = some "master" ∧ (∃ n, connected_slaves = some n ∧ 2 ≤ n) ∧
       ∀ l ∈ links, l = some "up") := by
  unfold replication_healthy
  cases connected_slaves <;>
    simp [List.all_eq_true, and_assoc]

theorem intField_isSome_iff (d : List (String × String)) (k : String) :
    (intField d k).isSome = true ↔
      ∀ s, dget d k = some s → (pyInt s).isSome = true := by
  unfold intField
  cases h : dget d k <;> simp [h]

theorem parse_master_info_isSome (masters : List String) :
    (parse_master_info masters).isSome = true ↔
      ((intField (flatPairs masters) "port").isSome = true ∧
       (intField (flatPairs masters) "num-slaves").isSome = true ∧
       (intField (flatPairs masters) "num-other-sentinels").isSome = true ∧
       (intField (flatPairs masters) "quorum").isSome = true) := by
  unfold parse_master_info
  cases h1 : intField (flatPairs masters) "port" <;>
    cases h2 : intField (flatPairs masters) "num-slaves" <;>
      cases h3 : intField (flatPairs masters) "num-other-sentinels" <;>
        cases h4 : intField (flatPairs masters) "quorum" <;>
          simp [h1, h2, h3, h4]

/-- C7 (amended): decoding the master reply fails exactly when a numeric
field is present but does not parse as an integer (the raise escapes to the
enclosing handler, failing that check); missing fields — including the
mandatory `name`/`ip`/`port` — are silently defaulted and never cause a
failure; and a failed master-monitoring check does not abort the run: all
six tests of `run_all_tests` still execute. -/
theorem C7_decode_error_behavior :
    (∀ masters : List String,
        (parse_master_info masters).isSome = true ↔
          ∀ k ∈ numericKeys, ∀ s, dget (flatPairs masters) k = some s →
            (pyInt s).isSome = true) ∧
    (∀ t3 t4 t5 t6 : Bool, (run_all_tests true false t3 t4 t5 t6).2 = 6) := by
  constructor
  · intro masters
    rw [parse_master_info_isSome]
    simp only [numericKeys, List.mem_cons, List.not_mem_nil, or_false,
      intField_isSome_iff]
    constructor
    · rintro ⟨hp, hs, hn, hq⟩ k hk
      rcases hk with rfl | rfl | rfl | rfl
      · exact hp
      · exact hs
      · exact hn
      · exact hq
    · intro h
      exact ⟨h _ (Or.inl rfl), h _ (Or.inr (Or.inl rfl)),
             h _ (Or.inr (Or.inr (Or.inl rfl))), h _ (Or.inr (Or.inr (Or.inr rfl)))⟩
  · intro t3 t4 t5 t6
    rfl

/-- C7 counterexample: a reply whose single record is missing the mandatory
`name`, `ip` and `port` fields decodes successfully with defaulted values,
instead of failing with a decode error as the claim requires. -/
theorem C7_missing_fields_decode_ok :
    parse_master_info ["flags", "master"] =
      some { name := none, ip := none, port := 0, flags := some "master",
             num_slaves := 0, num_sentinels := 0, quorum := 0 } := by
  decide

/-- C8: the cluster test suite exits 0 iff every executed test passed (a
first-test failure stops the run with only that failed test executed), and
the scenario runner exits 0 iff a scenario argument was supplied and either
`all` was selected and every scenario passed, or a single known scenario was
selected and passed; a missing argument or unknown scenario name exits 1. -/
theorem C8_exit_codes :
    (∀ t1 t2 t3 t4 t5 t6 : Bool,
        main_cluster t1 t2 t3 t4 t5 t6 = 0 ↔
          (t1 = true ∧ t2 = true ∧ t3 = true ∧ t4 = true ∧ t5 = true ∧ t6 = true)) ∧
    (∀ (argv : List String) (results : String → Bool),
        main_scenarios argv results = 0 ↔
          ∃ a, argv.get? 1 = some a ∧
            ((a.toLower = "all" ∧ ∀ n ∈ scenarioNames, results n = true) ∨
             (a.toLower ≠ "all" ∧ a.toLower ∈ scenarioNames ∧
              results a.toLower = true))) := by
  constructor
  · decide
  · intro argv results
    unfold main_scenarios run_scenario
    cases h : argv.get? 1 with
    | none => simp
    | some a =>
      simp only [Option.some.injEq, exists_eq_left']
      by_cases hall : a.toLower = "all"
      · rw [if_pos hall]
        cases hres : scenarioNames.all results <;>
          simp_all [List.all_eq_true]
      · rw [if_neg hall]
        by_cases hmem : a.toLower ∈ scenarioNames
        · rw [if_pos hmem]
          cases hr : results a.toLower <;> simp_all
        · rw [if_neg hmem]
          simp_all

/-- C9: the replica read-only check passes iff each of the two replica
writes raised a `ResponseError` whose message contains `READONLY`
(case-sensitive) or contains `read only replica` ignoring case; an accepted
write, a different message, or any other exception fails the check. -/
theorem C9_readonly_check (w1 w2 : WriteOutcome) :
    test_write_to_replica_fails w1 w2 = true ↔
      ((∃ m, w1 = WriteOutcome.responseError m ∧ readonly_msg_ok m = true) ∧
       (∃ m, w2 = WriteOutcome.responseError m ∧ readonly_msg_ok m = true)) := by
  cases w1 with
  | accepted => simp [test_write_to_replica_fails]
  | otherError => simp [test_write_to_replica_fails]
  | responseError m1 =>
    cases h1 : readonly_msg_ok m1 with
    | false =>
      simp [test_write_to_replica_fails, h1]
    | true =>
      cases w2 <;> simp [test_write_to_replica_fails, h1]

/-- C10: the stress scenario performs exactly ten keyed writes and passes
iff at least eight of the ten keys are read back from both replicas equal to
the written value, so a partial replication failure of up to two keys still
passes. -/
theorem C10_stress_threshold (vals : Nat → String) (get1 get2 : String → Option String) :
    (stressOperations vals).length = 10 ∧
    (test_stress_scenario vals get1 get2 = true ↔
      8 ≤ (stressOperations vals).countP (stressOpOk get1 get2)) := by
  have hlen : (stressOperations vals).length = 10 := by
    simp [stressOperations]
  refine ⟨hlen, ?_⟩
  simp only [test_stress_scenario]
  rw [hlen]
  simp only [decide_eq_true_eq]
  have hle : (stressOperations vals).countP (stressOpOk get1 get2) ≤ 10 := by
    rw [← hlen]
    exact List.countP_le_length _
  omega

theorem countRestores_append (l1 l2 : List Ev) :
    countRestores (l1 ++ l2) = countRestores l1 + countRestores l2 := by
  induction l1 with
  | nil => simp [countRestores]
  | cons h t ih => cases h <;> simp [countRestores, ih, Nat.add_right_comm]

theorem mfOuter_fst_ne_true (env : MFEnv) (tr : List Ev) :
    (mfOuter env tr).1 ≠ PyResult.retTrue := by
  cases h : env.restoreOuter <;> simp [mfOuter, h]

theorem mfInner_fst_ne_true (env : MFEnv) (tr : List Ev) :
    (mfInner env tr).1 ≠ PyResult.retTrue := by
  cases h : env.restoreInner <;> simp [mfInner, h, mfOuter_fst_ne_true]

theorem mfOuter_trace (env : MFEnv) (tr : List Ev) :
    (mfOuter env tr).2 = tr ++ [Ev.restoreMaster] := by
  cases h : env.restoreOuter <;> simp [mfOuter, h]

theorem mfInner_trace (env : MFEnv) (tr : List Ev) :
    (mfInner env tr).2 = tr ++ [Ev.restoreMaster] ∨
    (mfInner env tr).2 = tr ++ [Ev.restoreMaster, Ev.restoreMaster] := by
  cases h : env.restoreInner with
  | ok a => left; simp [mfInner, h]
  | kbint => left; simp [mfInner, h]
  | exc => right; simp [mfInner, h, mfOuter_trace]

theorem notMem_mfOuter (env : MFEnv) (tr : List Ev)
    (h : Ev.healthCheck ∉ tr) : Ev.healthCheck ∉ (mfOuter env tr).2 := by
  rw [mfOuter_trace]
  simp [h]

theorem notMem_mfInner (env : MFEnv) (tr : List Ev)
    (h : Ev.healthCheck ∉ tr) : Ev.healthCheck ∉ (mfInner env tr).2 := by
  rcases mfInner_trace env tr with h2 | h2 <;> rw [h2] <;> simp [h]

theorem mem_mfOuter (env : MFEnv) (tr : List Ev) (e : Ev) (h : e ∈ tr) :
    e ∈ (mfOuter env tr).2 := by
  rw [mfOuter_trace]
  exact List.mem_append_left _ h

theorem mem_mfInner (env : MFEnv) (tr : List Ev) (e : Ev) (h : e ∈ tr) :
    e ∈ (mfInner env tr).2 := by
  rcases mfInner_trace env tr with h2 | h2 <;> rw [h2] <;>
    exact List.mem_append_left _ h

/-- C3 (amended): provided no call is hit by an operator interrupt and the
restore invocations themselves succeed, `test_master_failure` enters a
restore site exactly once on every exit path — normal completion, every
failure branch, and any `Exception` raised during fault injection or
polling.  (On operator interrupt the function propagates the interrupt and,
when it strikes before a restore site, performs no restore at all.) -/
theorem C3_restore_exactly_once :
    ∀ env : MFEnv, noInterrupt env → restoresOk env →
      countRestores (testMasterFailure env).2 = 1 := by
  rintro ⟨sb, un, st, sm, ga, wn, role, rs, ro, rn, ri, rou⟩
    ⟨h1, h2, h3, h4, h5, h6⟩ ⟨r1, r2, r3, r4, r5⟩
  subst r1 r2 r3 r4 r5
  cases sb with
  | kbint => exact absurd rfl h1
  | exc => rfl
  | ok u =>
    cases un with
    | kbint => exact absurd rfl h2
    | exc => rfl
    | ok u2 =>
      cases st with
      | kbint => exact absurd rfl h3
      | exc => rfl
      | ok u3 =>
        cases sm with
        | kbint => exact absurd rfl h4
        | exc => rfl
        | ok ms =>
          cases ga with
          | kbint => exact absurd rfl h5
          | exc => rfl
          | ok addr =>
            rcases addr with _ | ⟨a0, _ | ⟨a1, rest⟩⟩
            · rfl
            · rfl
            · by_cases hmem : a0 = "redis-replica-1" ∨ a0 = "redis-replica-2"
              · cases wn with
                | kbint => exact absurd rfl h6
                | exc => simp [testMasterFailure, hmem, countRestores]
                | ok u4 => simp [testMasterFailure, hmem, countRestores]
              · simp [testMasterFailure, hmem, countRestores]

theorem C3_restore_exactly_once_witness :
    noInterrupt envMFok ∧ restoresOk envMFok ∧
    countRestores (testMasterFailure envMFok).2 = 1 :=
  ⟨by unfold noInterrupt; decide, by unfold restoresOk; decide,
   C3_restore_exactly_once envMFok (by unfold noInterrupt; decide)
     (by unfold restoresOk; decide)⟩

/-- C3 counterexample: a `KeyboardInterrupt` while polling the monitor tier
exits `test_master_failure` with the interrupt propagating and zero restore
invocations — the restore is not performed on this exit path, and `main`'s
`KeyboardInterrupt` handler exits the process without restoring either. -/
theorem C3_interrupt_skips_restore :
    (testMasterFailure envMFinterrupt).1 = PyResult.raisedKb ∧
    countRestores (testMasterFailure envMFinterrupt).2 = 0 := by
  decide

/-- C4 (amended): only the sentinel-failure scenario captures baseline
health before its fault: when the baseline check reports the monitoring tier
unhealthy, it returns a plain failed verdict immediately with no fault
injected (its trace is exactly the health check, with no distinguished
precondition-failed verdict).  The failover scenario performs no baseline
health check on any run, and issues its stop command once the two pre-fault
steps succeed. -/
theorem C4_baseline_health :
    (∀ env : SFEnv, env.healthMonitoring = Res.ok false →
        testSentinelFailure env = (PyResult.retFalse, [Ev.healthCheck])) ∧
    (∀ env : MFEnv, Ev.healthCheck ∉ (testMasterFailure env).2) ∧
    (∀ env : MFEnv, env.setBefore = Res.ok () → env.updateNoRestart = Res.ok () →
        Ev.stopNode "redis-master" ∈ (testMasterFailure env).2) := by
  refine ⟨?_, ?_, ?_⟩
  · rintro ⟨hm, s2, p1, p3, sm, a1, a2, a3, a4⟩ h
    subst h
    rfl
  · rintro ⟨sb, un, st, sm, ga, wn, role, rs, ro, rn, ri, rou⟩
    cases sb with
    | kbint => simp [testMasterFailure]
    | exc => exact notMem_mfOuter _ _ (by decide)
    | ok u =>
      cases un with
      | kbint => simp [testMasterFailure]
      | exc => exact notMem_mfOuter _ _ (by decide)
      | ok u2 =>
        cases st with
        | kbint => simp [testMasterFailure]
        | exc => exact notMem_mfOuter _ _ (by decide)
        | ok u3 =>
          cases sm with
          | kbint => simp [testMasterFailure]
          | exc => exact notMem_mfOuter _ _ (by decide)
          | ok ms =>
            cases ga with
            | kbint => simp [testMasterFailure]
            | exc => exact notMem_mfInner _ _ (by decide)
            | ok addr =>
              rcases addr with _ | ⟨a0, _ | ⟨a1, rest⟩⟩
              · cases rn with
                | kbint => simp [testMasterFailure]
                | exc => exact notMem_mfInner _ _ (by decide)
                | ok u4 => simp [testMasterFailure]
              · exact notMem_mfInner _ _ (by decide)
              · by_cases hmem : a0 = "redis-replica-1" ∨ a0 = "redis-replica-2"
                · cases wn with
                  | kbint => simp [testMasterFailure, hmem]
                  | exc =>
                    simp only [testMasterFailure, if_pos hmem]
                    exact notMem_mfInner _ _ (by decide)
                  | ok u4 =>
                    cases rs with
                    | kbint => simp [testMasterFailure, hmem]
                    | exc =>
                      simp only [testMasterFailure, if_pos hmem]
                      exact notMem_mfInner _ _ (by decide)
                    | ok u5 => simp [testMasterFailure, hmem]
                · cases ro with
                  | kbint => simp [testMasterFailure, hmem]
                  | exc =>
                    simp only [testMasterFailure, if_neg hmem]
                    exact notMem_mfInner _ _ (by decide)
                  | ok u4 => simp [testMasterFailure, hmem]
  · rintro ⟨sb, un, st, sm, ga, wn, role, rs, ro, rn, ri, rou⟩ h1 h2
    subst h1 h2
    cases st with
    | kbint => simp [testMasterFailure]
    | exc => exact mem_mfOuter _ _ _ (by decide)
    | ok u3 =>
      cases sm with
      | kbint => simp [testMasterFailure]
      | exc => exact mem_mfOuter _ _ _ (by decide)
      | ok ms =>
        cases ga with
        | kbint => simp [testMasterFailure]
        | exc => exact mem_mfInner _ _ _ (by decide)
        | ok addr =>
          rcases addr with _ | ⟨a0, _ | ⟨a1, rest⟩⟩
          · cases rn with
            | kbint => simp [testMasterFailure]
            | exc => exact mem_mfInner _ _ _ (by decide)
            | ok u4 => simp [testMasterFailure]
          · exact mem_mfInner _ _ _ (by decide)
          · by_cases hmem : a0 = "redis-replica-1" ∨ a0 = "redis-replica-2"
            · cases wn with
              | kbint => simp [testMasterFailure, hmem]
              | exc =>
                simp only [testMasterFailure, if_pos hmem]
                exact mem_mfInner _ _ _ (by decide)
              | ok u4 =>
                cases rs with
                | kbint => simp [testMasterFailure, hmem]
                | exc =>
                  simp only [testMasterFailure, if_pos hmem]
                  exact mem_mfInner _ _ _ (by decide)
                | ok u5 => simp [testMasterFailure, hmem]
            · cases ro with
              | kbint => simp [testMasterFailure, hmem]
              | exc =>
                simp only [testMasterFailure, if_neg hmem]
                exact mem_mfInner _ _ _ (by decide)
              | ok u4 => simp [testMasterFailure, hmem]

theorem C4_baseline_health_witness :
    testSentinelFailure envSFunhealthy = (PyResult.retFalse, [Ev.healthCheck]) ∧
    Ev.healthCheck ∉ (testMasterFailure envMFok).2 ∧
    Ev.stopNode "redis-master" ∈ (testMasterFailure envMFok).2 :=
  ⟨C4_baseline_health.1 envSFunhealthy rfl, C4_baseline_health.2.1 envMFok,
   C4_baseline_health.2.2 envMFok rfl rfl⟩

/-- C4 counterexample: a fully successful failover run stops the master
container while its action trace contains no baseline health check at all —
the fault is injected without baseline health being captured or asserted. -/
theorem C4_failover_skips_baseline :
    Ev.stopNode "redis-master" ∈ (testMasterFailure envMFok).2 ∧
    Ev.healthCheck ∉ (testMasterFailure envMFok).2 := by
  decide

/-- C5 (amended): the failover scenario's verdict is independent of the role
the new address would report (no role probe is performed), and it reports
success exactly when the pre-fault steps and both queries succeed, the
resolved address names one of the two known replicas (any replica is
accepted, with no priority cross-check), the test write to it succeeds, and
the restore pair after the write succeeds. -/
theorem C5_failover_acceptance (env : MFEnv) (r : String) :
    (testMasterFailure { env with newMasterRole := r }).1 = (testMasterFailure env).1 ∧
    ((testMasterFailure env).1 = PyResult.retTrue ↔
      (env.setBefore = Res.ok () ∧ env.updateNoRestart = Res.ok () ∧
       env.stopMaster = Res.ok () ∧ (∃ ms, env.sentinelMasters = Res.ok ms) ∧
       (∃ host hport rest, env.getMasterAddr = Res.ok (host :: hport :: rest) ∧
         (host = "redis-replica-1" ∨ host = "redis-replica-2")) ∧
       env.writeNewMaster = Res.ok () ∧ env.restoreSuccess = Res.ok ())) := by
  obtain ⟨sb, un, st, sm, ga, wn, role, rs, ro, rn, ri, rou⟩ := env
  constructor
  · rfl
  · cases sb with
    | kbint => simp [testMasterFailure]
    | exc => simp [testMasterFailure, mfOuter_fst_ne_true]
    | ok u =>
      cases u
      cases un with
      | kbint => simp [testMasterFailure]
      | exc => simp [testMasterFailure, mfOuter_fst_ne_true]
      | ok u2 =>
        cases u2
        cases st with
        | kbint => simp [testMasterFailure]
        | exc => simp [testMasterFailure, mfOuter_fst_ne_true]
        | ok u3 =>
          cases u3
          cases sm with
          | kbint => simp [testMasterFailure]
          | exc => simp [testMasterFailure, mfOuter_fst_ne_true]
          | ok ms =>
            cases ga with
            | kbint => simp [testMasterFailure]
            | exc => simp [testMasterFailure, mfInner_fst_ne_true]
            | ok addr =>
              rcases addr with _ | ⟨a0, _ | ⟨a1, rest⟩⟩
              · cases rn with
                | kbint => simp [testMasterFailure]
                | exc => simp [testMasterFailure, mfInner_fst_ne_true]
                | ok u4 => simp [testMasterFailure]
              · simp [testMasterFailure, mfInner_fst_ne_true]
              · by_cases hmem : a0 = "redis-replica-1" ∨ a0 = "redis-replica-2"
                · cases wn with
                  | kbint => simp [testMasterFailure, hmem]
                  | exc => simp [testMasterFailure, hmem, mfInner_fst_ne_true]
                  | ok u4 =>
                    cases u4
                    cases rs with
                    | kbint => simp [testMasterFailure, hmem]
                    | exc => simp [testMasterFailure, hmem, mfInner_fst_ne_true]
                    | ok u5 =>
                      cases u5
                      simp [testMasterFailure, hmem]
                · cases ro with
                  | kbint => simp [testMasterFailure, hmem]
                  | exc => simp [testMasterFailure, hmem, mfInner_fst_ne_true]
                  | ok u4 => simp [testMasterFailure, hmem]

/-- C5 counterexample: a run in which the resolved replica would report the
role `slave` if probed — so the claimed acceptance condition, a role probe
reporting master together with a successful write, is false — still ends
with the scenario reporting failover success, because the source performs no
role probe. -/
theorem C5_success_without_master_role :
    (testMasterFailure envMFok).1 = PyResult.retTrue ∧
    acceptsWriteSpec envMFok = false := by
  decide
